import Mathlib

/-!
Shallow embedding of the corruption-classification and struct-decoding
logic of the `bgmdwnldr` repository, from
`src/lldb/lib/quickjs/constants.py`, `src/lldb/lib/quickjs/types.py` and
`src/lldb/lib/quickjs/corruption.py`.

Python unbounded machine integers read from 64-bit fields are modelled as
`Nat` (values produced by an 8-byte little-endian unpack are below 2^64);
signed 32-bit fields are decoded into `Int` exactly as `struct.unpack`
with format `<i` does.  Python `set` becomes `Finset Nat`; fallible
decoding (`Optional[...]`) becomes `Option`.  The external memory reader
(`MemoryReader.read`, an I/O collaborator) is modelled as an arbitrary
function from address and size to an optional byte buffer.
-/

namespace QuickJS

/-- `MIN_VALID_PTR` from constants.py. -/
def MIN_VALID_PTR : Nat := 0x1000

/-- `MAX_VALID_PTR` from constants.py. -/
def MAX_VALID_PTR : Nat := 0x0000FFFFFFFFFFFF

/-- `SUSPICIOUS_PATTERNS` from constants.py. -/
def SUSPICIOUS_PATTERNS : List Nat :=
  [0xc0000000, 0xc0000008, 0xFFFFFFFFFFFFFFFE, 0xFFFFFFFFFFFFFFFF, 0, 0x8, 0x10]

/-- Lowercase hexadecimal rendering of a natural number, as Python
`format(n, "x")` produces inside the f-strings of corruption.py. -/
def natToHex (n : Nat) : String :=
  String.mk (Nat.toDigits 16 n)

/-- `decode_js_tag` from constants.py: the tag-name dictionary lookup on
the low 4 bits, defaulting to an UNKNOWN_TAG rendering. -/
def decode_js_tag (value : Nat) : String :=
  let tag := value &&& 0xF
  match tag with
  | 0 => "JS_TAG_INT"
  | 1 => "JS_TAG_BOOL/UNDEFINED"
  | 2 => "JS_TAG_NULL"
  | 3 => "JS_TAG_EXCEPTION"
  | 4 => "JS_TAG_CATCH_OFFSET"
  | 5 => "JS_TAG_UNINITIALIZED"
  | 6 => "JS_TAG_UNDEFINED"
  | 7 => "JS_TAG_UNDEFINED2"
  | 8 => "JS_TAG_FLOAT64"
  | _ => "UNKNOWN_TAG_" ++ toString tag

/-- `is_valid_pointer` from constants.py (the `ptr is None` guard cannot
arise at type `Nat` and is dropped). -/
def is_valid_pointer (ptr : Nat) : Bool :=
  if ptr == 0 then false
  else if ptr < MIN_VALID_PTR then false
  else if ptr > MAX_VALID_PTR then false
  else if ptr &&& 0x7 != 0 then false
  else true

/-- `looks_like_tagged_value` from constants.py. -/
def looks_like_tagged_value (value : Nat) : Bool :=
  if value &&& 0xF == 0 then false
  else if value >>> 4 != 0 then false
  else true

/-- `CorruptionType` enum from corruption.py. -/
inductive CorruptionType where
  | NULL_SHAPE
  | INVALID_POINTER
  | TAGGED_VALUE
  | FREED_SHAPE
  | SHAPE_CHANGED_UNEXPECTEDLY
  | USE_AFTER_FREE
  | OUT_OF_RANGE
  deriving DecidableEq, Repr

/-- `CorruptionReport` dataclass from corruption.py. -/
structure CorruptionReport where
  type : CorruptionType
  object_addr : Nat
  shape_value : Nat
  expected_range : Option (Nat × Nat)
  description : String
  severity : String
  recommendation : Option String := none
  deriving DecidableEq, Repr

/-- The mutable state of a `CorruptionDetector` instance: its freed-shape
set and known-good-shape set.  (The `_object_history` map is only written
by `record_object_state`, which stamps entries with the wall clock; no
function modelled here reads it, so it is not part of the state.) -/
structure CorruptionDetector where
  freedShapes : Finset Nat
  knownGoodShapes : Finset Nat
  deriving DecidableEq

/-- `CorruptionDetector.__init__`: both sets start empty. -/
def CorruptionDetector.init : CorruptionDetector :=
  { freedShapes := ∅, knownGoodShapes := ∅ }

/-- `CorruptionDetector.check_shape` from corruption.py: the first-match
decision chain over a candidate shape-pointer value. -/
def CorruptionDetector.check_shape (det : CorruptionDetector)
    (shape_ptr : Nat) (obj_addr : Nat := 0) : Option CorruptionReport :=
  if shape_ptr = 0 then
    some { type := .NULL_SHAPE
           object_addr := obj_addr
           shape_value := shape_ptr
           expected_range := some (MIN_VALID_PTR, MAX_VALID_PTR)
           description := "Shape pointer is NULL (object not initialized or freed)"
           severity := "critical"
           recommendation := some "Check object initialization path" }
  else if shape_ptr = 0xFFFFFFFFFFFFFFFF then
    some { type := .TAGGED_VALUE
           object_addr := obj_addr
           shape_value := shape_ptr
           expected_range := some (MIN_VALID_PTR, MAX_VALID_PTR)
           description := "Shape is -1 (looks like JS_TAG_OBJECT), memory corruption likely"
           severity := "critical"
           recommendation := some "Check for buffer overflow or use-after-free" }
  else if looks_like_tagged_value shape_ptr then
    some { type := .TAGGED_VALUE
           object_addr := obj_addr
           shape_value := shape_ptr
           expected_range := some (MIN_VALID_PTR, MAX_VALID_PTR)
           description := "Shape looks like tagged JSValue: " ++ decode_js_tag shape_ptr
           severity := "critical"
           recommendation := some "JSValue was written to shape field - check property assignment" }
  else if shape_ptr < MIN_VALID_PTR then
    some { type := .TAGGED_VALUE
           object_addr := obj_addr
           shape_value := shape_ptr
           expected_range := some (MIN_VALID_PTR, MAX_VALID_PTR)
           description := "Shape is small value (0x" ++ natToHex shape_ptr ++ "), likely tagged pointer"
           severity := "critical" }
  else if shape_ptr > MAX_VALID_PTR then
    some { type := .OUT_OF_RANGE
           object_addr := obj_addr
           shape_value := shape_ptr
           expected_range := some (MIN_VALID_PTR, MAX_VALID_PTR)
           description := "Shape pointer out of valid range (kernel space?)"
           severity := "critical" }
  else if shape_ptr ∈ SUSPICIOUS_PATTERNS then
    some { type := .INVALID_POINTER
           object_addr := obj_addr
           shape_value := shape_ptr
           expected_range := some (MIN_VALID_PTR, MAX_VALID_PTR)
           description := "Shape matches known corruption pattern: 0x" ++ natToHex shape_ptr
           severity := "critical" }
  else if shape_ptr ∈ det.freedShapes then
    some { type := .FREED_SHAPE
           object_addr := obj_addr
           shape_value := shape_ptr
           expected_range := none
           description := "Shape was freed but is still referenced (use-after-free)"
           severity := "critical"
           recommendation := some "Set watchpoint on shape field to catch when it changes" }
  else
    none

/-- `CorruptionDetector.register_freed_shape`: add to the freed set and
discard from the known-good set (discarding an absent element is a
no-op, exactly as `Finset.erase`). -/
def CorruptionDetector.register_freed_shape (det : CorruptionDetector)
    (shape_addr : Nat) : CorruptionDetector :=
  { freedShapes := insert shape_addr det.freedShapes
    knownGoodShapes := det.knownGoodShapes.erase shape_addr }

/-- `CorruptionDetector.register_good_shape`: add to the known-good set
and discard from the freed set. -/
def CorruptionDetector.register_good_shape (det : CorruptionDetector)
    (shape_addr : Nat) : CorruptionDetector :=
  { freedShapes := det.freedShapes.erase shape_addr
    knownGoodShapes := insert shape_addr det.knownGoodShapes }

/-- `CorruptionDetector.is_shape_freed`. -/
def CorruptionDetector.is_shape_freed (det : CorruptionDetector)
    (shape_addr : Nat) : Bool :=
  shape_addr ∈ det.freedShapes

/-! Struct decoding, from types.py.  A buffer is a `List Nat` of byte
values; the external reader is a function from base address and request
size to an optional buffer. -/

/-- A memory reader: `read addr size` yields the bytes or fails.  Models
the `MemoryReader.read(addr, size, use_cache=False)` collaborator. -/
def MemoryReader : Type := Nat → Nat → Option (List Nat)

/-- Little-endian unsigned decode of `width` bytes at `off`, as
`struct.unpack_from` does for the formats `<H`, `<B`, `<I`, `<Q`
(callers only decode within the length-checked region of the buffer). -/
def leBytes (data : List Nat) : Nat → Nat → Nat
  | _, 0 => 0
  | off, width + 1 => data.getD off 0 + 256 * leBytes data (off + 1) width

/-- Little-endian signed 32-bit decode at `off`, as `struct.unpack_from`
with format `<i`. -/
def leInt32 (data : List Nat) (off : Nat) : Int :=
  let u := leBytes data off 4
  if u < 2 ^ 31 then (u : Int) else (u : Int) - 2 ^ 32

/-! `JSObjectOffset` from constants.py. -/

namespace JSObjectOffset

def CLASS_ID : Nat := 0
def FLAGS : Nat := 2
def WEAKREF_COUNT : Nat := 4
def SHAPE : Nat := 8
def PROP : Nat := 16
def SIZE : Nat := 24

end JSObjectOffset

/-! `JSShapeOffset` from constants.py. -/

namespace JSShapeOffset

def IS_HASHED : Nat := 0
def HASH : Nat := 4
def PROP_HASH_MASK : Nat := 8
def PROP_SIZE : Nat := 12
def PROP_COUNT : Nat := 16
def DELETED_PROP_COUNT : Nat := 20
def SHAPE_HASH_NEXT : Nat := 24
def PROTO : Nat := 32
def SIZE : Nat := 40

end JSShapeOffset

/-- `JSObject` dataclass from types.py. -/
structure JSObject where
  addr : Nat
  class_id : Nat
  flags : Nat
  weakref_count : Nat
  shape : Nat
  prop : Nat
  deriving DecidableEq, Repr

/-- `JSObject.from_memory`: reject a base address below `MIN_VALID_PTR`,
then require at least 24 bytes from the reader (`if not data or
len(data) < SIZE` — an empty buffer is already shorter than 24), then
unpack the fixed-offset fields. -/
def JSObject.from_memory (reader : MemoryReader) (addr : Nat) :
    Option JSObject :=
  if addr < MIN_VALID_PTR then
    none
  else
    match reader addr JSObjectOffset.SIZE with
    | none => none
    | some data =>
      if data.length < JSObjectOffset.SIZE then
        none
      else
        some { addr := addr
               class_id := leBytes data JSObjectOffset.CLASS_ID 2
               flags := leBytes data JSObjectOffset.FLAGS 1
               weakref_count := leBytes data JSObjectOffset.WEAKREF_COUNT 4
               shape := leBytes data JSObjectOffset.SHAPE 8
               prop := leBytes data JSObjectOffset.PROP 8 }

/-- `JSObject.is_valid`: the class id must lie in 1..255. -/
def JSObject.is_valid (obj : JSObject) : Bool :=
  if obj.class_id < 1 || obj.class_id > 255 then false else true

/-- `JSShape` dataclass from types.py. -/
structure JSShape where
  addr : Nat
  is_hashed : Bool
  hash_val : Nat
  prop_hash_mask : Nat
  prop_size : Int
  prop_count : Int
  deleted_prop_count : Int
  shape_hash_next : Nat
  proto : Nat
  deriving DecidableEq, Repr

/-- `JSShape.from_memory`: reject a base address failing
`is_valid_pointer`, then require at least 40 bytes from the reader, then
unpack the fixed-offset fields (`prop_size`, `prop_count` and
`deleted_prop_count` are signed 32-bit). -/
def JSShape.from_memory (reader : MemoryReader) (addr : Nat) :
    Option JSShape :=
  if !is_valid_pointer addr then
    none
  else
    match reader addr JSShapeOffset.SIZE with
    | none => none
    | some data =>
      if data.length < JSShapeOffset.SIZE then
        none
      else
        some { addr := addr
               is_hashed := data.getD JSShapeOffset.IS_HASHED 0 != 0
               hash_val := leBytes data JSShapeOffset.HASH 4
               prop_hash_mask := leBytes data JSShapeOffset.PROP_HASH_MASK 4
               prop_size := leInt32 data JSShapeOffset.PROP_SIZE
               prop_count := leInt32 data JSShapeOffset.PROP_COUNT
               deleted_prop_count := leInt32 data JSShapeOffset.DELETED_PROP_COUNT
               shape_hash_next := leBytes data JSShapeOffset.SHAPE_HASH_NEXT 8
               proto := leBytes data JSShapeOffset.PROTO 8 }

/-- `JSShape.is_valid`: `prop_count` and `prop_size` nonnegative,
`prop_count` at most `prop_size`, and `prop_hash_mask` either 0 or one
less than a power of two. -/
def JSShape.is_valid (s : JSShape) : Bool :=
  if s.prop_count < 0 || s.prop_size < 0 then false
  else if s.prop_count > s.prop_size then false
  else if s.prop_hash_mask != 0 && (s.prop_hash_mask &&& (s.prop_hash_mask + 1)) != 0 then false
  else true

/-- `CorruptionDetector.check_object`: validate the class-id range first
(the Python `if not obj` guard is vacuous for a dataclass instance, which
is always truthy; the `None` case never reaches this typed function),
then delegate to `check_shape`. -/
def CorruptionDetector.check_object (det : CorruptionDetector)
    (obj : JSObject) : Option CorruptionReport :=
  if !obj.is_valid then
    some { type := .INVALID_POINTER
           object_addr := obj.addr
           shape_value := obj.shape
           expected_range := some (1, 255)
           description := "Object has invalid class_id: " ++ toString obj.class_id
           severity := "warning" }
  else
    det.check_shape obj.shape obj.addr

/-! Auxiliary definitions used to state the claims. -/

/-- A single `check_shape` call modelled with its effect on the detector
state made explicit: the method body only reads `self._freed_shapes` and
never assigns, so the state is returned unchanged. -/
def CorruptionDetector.check_shape_run (det : CorruptionDetector)
    (shape_ptr : Nat) (obj_addr : Nat) :
    Option CorruptionReport × CorruptionDetector :=
  (det.check_shape shape_ptr obj_addr, det)

/-- One mutation of the detector state through its registration API. -/
inductive DetectorEvent where
  | freed (a : Nat)
  | good (a : Nat)
  deriving DecidableEq, Repr

/-- Apply one registration call to a detector state. -/
def applyEvent (det : CorruptionDetector) : DetectorEvent → CorruptionDetector
  | .freed a => det.register_freed_shape a
  | .good a => det.register_good_shape a

/-- Apply a finite sequence of registration calls in order. -/
def applyEvents (det : CorruptionDetector) (evs : List DetectorEvent) :
    CorruptionDetector :=
  evs.foldl applyEvent det

/-- The freed-shape set and the known-good-shape set of a detector state
have no common member. -/
def SetsDisjoint (det : CorruptionDetector) : Prop :=
  ∀ x, x ∈ det.freedShapes → x ∉ det.knownGoodShapes

/-- Spec-side validity predicate, written from the spec sentence
"a shape reference is valid iff it is non-zero, not equal to the
all-ones sentinel, at least a minimum-alignment value (not a small/tagged
scalar misread as a reference), at most a maximum plausible user-space
address, 8-byte aligned, and not found in a set of previously-freed shape
references" — to be compared with `check_shape` returning `none`. -/
def spec_shape_ref_valid (det : CorruptionDetector) (v : Nat) : Bool :=
  v != 0 &&
  v != 0xFFFFFFFFFFFFFFFF &&
  decide (MIN_VALID_PTR ≤ v) &&
  decide (v ≤ MAX_VALID_PTR) &&
  !(v &&& 0xF != 0 && v >>> 4 == 0) &&
  v % 8 == 0 &&
  decide (v ∉ det.freedShapes)

/-- Spec-side reading of the shape table row "slot count, offset 16,
signed": the little-endian signed 32-bit value at byte offset 16. -/
def spec_slot_count (data : List Nat) : Int := leInt32 data 16

/-- Spec-side reading of the shape table row "used count, offset 20,
signed, at most slot count": the little-endian signed 32-bit value at
byte offset 20. -/
def spec_used_count (data : List Nat) : Int := leInt32 data 20

/-! Concrete fixtures for counterexamples and witnesses. -/

/-- A 40-byte shape buffer whose signed fields are 5 at offset 12
(prop_size), 3 at offset 16 (prop_count) and 10 at offset 20
(deleted_prop_count); every other byte is zero. -/
def shapeFixtureBuf : List Nat :=
  [0, 0, 0, 0, 0, 0, 0, 0, 0, 0, 0, 0,
   5, 0, 0, 0, 3, 0, 0, 0, 10, 0, 0, 0,
   0, 0, 0, 0, 0, 0, 0, 0, 0, 0, 0, 0, 0, 0, 0, 0]

/-- A reader serving `shapeFixtureBuf` for a 40-byte request at
address 0x2000 and failing elsewhere. -/
def shapeFixtureReader : MemoryReader :=
  fun a n => if a = 0x2000 ∧ n = 40 then some shapeFixtureBuf else none

/-- The record `JSShape.from_memory shapeFixtureReader 0x2000` decodes to. -/
def shapeFixture : JSShape :=
  { addr := 0x2000
    is_hashed := false
    hash_val := 0
    prop_hash_mask := 0
    prop_size := 5
    prop_count := 3
    deleted_prop_count := 10
    shape_hash_next := 0
    proto := 0 }

/-- A reader that always returns a 3-byte buffer, shorter than either
structure's minimum size. -/
def shortReader : MemoryReader := fun _ _ => some [0, 0, 0]

/-- A reader that always fulfils the full request with nonzero bytes. -/
def fullReader : MemoryReader := fun _ n => some (List.replicate n 1)

/-- A decoded object with class id 300 and an in-range shape value, used
to exercise the object-level check. -/
def objFixture300 : JSObject :=
  { addr := 0x3000
    class_id := 300
    flags := 0
    weakref_count := 0
    shape := 0x2000
    prop := 0 }

/-! Helper lemmas. -/

/-- A value of at least 16 has a nonzero high part, so it never looks
like a small tagged scalar. -/
lemma looks_like_tagged_value_eq_false_of_ge (v : Nat) (h : 16 ≤ v) :
    looks_like_tagged_value v = false := by
  unfold looks_like_tagged_value
  split_ifs with h1 h2
  · rfl
  · rfl
  · exfalso
    simp only [ne_eq, bne_iff_ne, not_not] at h2
    rw [Nat.shiftRight_eq_div_pow] at h2
    omega

/-! Claim theorems. -/

/-- C1, counterexample: the claimed equivalence between `check_shape`
returning no corruption and the spec's validity invariant fails in both
directions at explicit inputs.  0x2001 is not 8-byte aligned, so the
spec invariant rejects it, yet `check_shape` returns no corruption (the
code never checks alignment); 0xc0000000 satisfies every clause of the
spec invariant, yet `check_shape` reports it (it is one of the
hard-coded suspicious patterns). -/
theorem check_shape_spec_valid_iff_counterexample :
    (CorruptionDetector.init.check_shape 0x2001 0 = none ∧
       spec_shape_ref_valid CorruptionDetector.init 0x2001 = false) ∧
    (spec_shape_ref_valid CorruptionDetector.init 0xc0000000 = true ∧
       CorruptionDetector.init.check_shape 0xc0000000 0 ≠ none) := by
  decide

/-- C1, amended: `check_shape v` returns no corruption (`none`) iff `v`
is non-zero, not the all-ones sentinel, does not look like a small
tagged scalar, is at least `MIN_VALID_PTR`, at most `MAX_VALID_PTR`, is
not one of the hard-coded suspicious patterns, and is not in the
detector's freed-shape set.  There is no alignment requirement. -/
theorem check_shape_none_iff_valid (det : CorruptionDetector) (v oa : Nat) :
    det.check_shape v oa = none ↔
      (v ≠ 0 ∧ v ≠ 0xFFFFFFFFFFFFFFFF ∧ looks_like_tagged_value v = false ∧
       MIN_VALID_PTR ≤ v ∧ v ≤ MAX_VALID_PTR ∧ v ∉ SUSPICIOUS_PATTERNS ∧
       v ∉ det.freedShapes) := by
  unfold CorruptionDetector.check_shape
  split_ifs with h1 h2 h3 h4 h5 h6 h7 <;> simp_all

/-- C2, counterexample: 0xc0000000 lies inside the valid pointer range,
yet after registering it as freed, `check_shape` classifies it as
`INVALID_POINTER` (the suspicious-pattern step fires first), not as the
freed-shape / use-after-free classification the claim requires. -/
theorem freed_shape_counterexample :
    (MIN_VALID_PTR ≤ 0xc0000000 ∧ (0xc0000000 : Nat) ≤ MAX_VALID_PTR) ∧
    ((CorruptionDetector.init.register_freed_shape 0xc0000000).check_shape
        0xc0000000 0).map CorruptionReport.type =
      some CorruptionType.INVALID_POINTER ∧
    CorruptionType.INVALID_POINTER ≠ CorruptionType.FREED_SHAPE ∧
    CorruptionType.INVALID_POINTER ≠ CorruptionType.USE_AFTER_FREE := by
  decide

/-- C2, amended: for every address in the valid range that is not one of
the hard-coded suspicious patterns, registering it as freed makes the
immediately following `check_shape` of that address report the
freed-shape (use-after-free) classification, whatever the prior detector
state. -/
theorem check_shape_after_register_freed (det : CorruptionDetector)
    (a oa : Nat) (h1 : MIN_VALID_PTR ≤ a) (h2 : a ≤ MAX_VALID_PTR)
    (h3 : a ∉ SUSPICIOUS_PATTERNS) :
    ((det.register_freed_shape a).check_shape a oa).map CorruptionReport.type =
      some CorruptionType.FREED_SHAPE := by
  have h1n : (4096 : Nat) ≤ a := h1
  have h2n : a ≤ 0xFFFFFFFFFFFF := h2
  have ht : looks_like_tagged_value a = false :=
    looks_like_tagged_value_eq_false_of_ge a (by omega)
  unfold CorruptionDetector.check_shape CorruptionDetector.register_freed_shape
  split_ifs <;> try simp_all
  all_goals omega

/-- C2, witness: instantiating the amended theorem at address 0x2000
from the initial state. -/
theorem check_shape_after_register_freed_witness :
    MIN_VALID_PTR ≤ 0x2000 ∧ (0x2000 : Nat) ≤ MAX_VALID_PTR ∧
    (0x2000 : Nat) ∉ SUSPICIOUS_PATTERNS ∧
    ((CorruptionDetector.init.register_freed_shape 0x2000).check_shape
        0x2000 0).map CorruptionReport.type =
      some CorruptionType.FREED_SHAPE :=
  ⟨by decide, by decide, by decide,
   check_shape_after_register_freed CorruptionDetector.init 0x2000 0
     (by decide) (by decide) (by decide)⟩

/-- C3, counterexample: 0x800 is positive, below the minimum plausible
address, and not a small tagged scalar, yet `check_shape` classifies it
with the tagged-value tag (as a small value, likely a tagged pointer),
not with the out-of-range tag the claim requires. -/
theorem small_value_out_of_range_counterexample :
    (0 < (0x800 : Nat) ∧ (0x800 : Nat) < MIN_VALID_PTR ∧
     looks_like_tagged_value 0x800 = false) ∧
    (CorruptionDetector.init.check_shape 0x800 0).map CorruptionReport.type =
      some CorruptionType.TAGGED_VALUE ∧
    CorruptionType.TAGGED_VALUE ≠ CorruptionType.OUT_OF_RANGE := by
  decide

/-- C3, amended: every positive value below `MIN_VALID_PTR` that is not
matched by an earlier decision step (not zero, and not a small tagged
scalar; it cannot be the all-ones sentinel) is classified with the
tagged-value tag — reported as a small value, likely a tagged pointer —
not with an out-of-range tag. -/
theorem check_shape_small_value_tagged (det : CorruptionDetector)
    (v oa : Nat) (h0 : 0 < v) (h1 : v < MIN_VALID_PTR)
    (ht : looks_like_tagged_value v = false) :
    (det.check_shape v oa).map CorruptionReport.type =
      some CorruptionType.TAGGED_VALUE := by
  have h1n : v < 4096 := h1
  unfold CorruptionDetector.check_shape
  split_ifs <;> simp_all

/-- C4, counterexample: on an explicit 40-byte buffer the decoded shape
passes the validity check although the value the claim calls the used
count (signed 32-bit at offset 20, here 10) exceeds the value it calls
the slot count (signed 32-bit at offset 16, here 3): the code actually
checks the field at offset 16 against the field at offset 12. -/
theorem shape_used_slot_counterexample :
    (JSShape.from_memory shapeFixtureReader 0x2000).map JSShape.is_valid =
      some true ∧
    spec_slot_count shapeFixtureBuf = 3 ∧
    spec_used_count shapeFixtureBuf = 10 ∧
    ¬ spec_used_count shapeFixtureBuf ≤ spec_slot_count shapeFixtureBuf := by
  decide

/-- C4, amended: `JSShape.from_memory` decodes the declared slot count
(`prop_size`) as the little-endian signed 32-bit value at byte offset
12 and the used property count (`prop_count`) as the little-endian
signed 32-bit value at byte offset 16 (offset 20 holds the
deleted-property count); the validity check requires the used count to
be nonnegative and to not exceed the slot count. -/
theorem shape_decode_offsets (reader : MemoryReader) (addr : Nat)
    (s : JSShape) (h : JSShape.from_memory reader addr = some s) :
    ∃ data, reader addr JSShapeOffset.SIZE = some data ∧
      JSShapeOffset.SIZE ≤ data.length ∧
      s.prop_size = leInt32 data JSShapeOffset.PROP_SIZE ∧
      s.prop_count = leInt32 data JSShapeOffset.PROP_COUNT ∧
      s.deleted_prop_count = leInt32 data JSShapeOffset.DELETED_PROP_COUNT ∧
      (s.is_valid = true → 0 ≤ s.prop_count ∧ s.prop_count ≤ s.prop_size) := by
  unfold JSShape.from_memory at h
  split at h
  · exact absurd h (by simp)
  · split at h
    · exact absurd h (by simp)
    · rename_i data heq
      split at h
      · exact absurd h (by simp)
      · rename_i hlen
        injection h with h
        subst h
        refine ⟨data, heq, by omega, rfl, rfl, rfl, ?_⟩
        intro hv
        unfold JSShape.is_valid at hv
        split_ifs at hv with g1 g2 g3
        simp_all

/-- C4, witness: instantiating the amended theorem on the fixture
reader, whose decode succeeds. -/
theorem shape_decode_offsets_witness :
    ∃ data, shapeFixtureReader 0x2000 JSShapeOffset.SIZE = some data ∧
      JSShapeOffset.SIZE ≤ data.length ∧
      shapeFixture.prop_size = leInt32 data JSShapeOffset.PROP_SIZE ∧
      shapeFixture.prop_count = leInt32 data JSShapeOffset.PROP_COUNT ∧
      shapeFixture.deleted_prop_count =
        leInt32 data JSShapeOffset.DELETED_PROP_COUNT ∧
      (shapeFixture.is_valid = true →
        0 ≤ shapeFixture.prop_count ∧
        shapeFixture.prop_count ≤ shapeFixture.prop_size) :=
  shape_decode_offsets shapeFixtureReader 0x2000 shapeFixture (by decide)

/-- C5: a buffer shorter than the minimum size (24 bytes for JSObject,
40 for JSShape) makes decoding return `none`, and a decoded record is
only ever produced from a buffer of at least the minimum size. -/
theorem from_memory_short_read (reader : MemoryReader) (addr : Nat) :
    (∀ data, reader addr JSObjectOffset.SIZE = some data →
        data.length < JSObjectOffset.SIZE →
        JSObject.from_memory reader addr = none) ∧
    (∀ data, reader addr JSShapeOffset.SIZE = some data →
        data.length < JSShapeOffset.SIZE →
        JSShape.from_memory reader addr = none) ∧
    (∀ obj, JSObject.from_memory reader addr = some obj →
        ∃ data, reader addr JSObjectOffset.SIZE = some data ∧
          JSObjectOffset.SIZE ≤ data.length) ∧
    (∀ s, JSShape.from_memory reader addr = some s →
        ∃ data, reader addr JSShapeOffset.SIZE = some data ∧
          JSShapeOffset.SIZE ≤ data.length) := by
  refine ⟨?_, ?_, ?_, ?_⟩
  · intro data hd hl
    unfold JSObject.from_memory
    split
    · rfl
    · rw [hd]
      simp [hl]
  · intro data hd hl
    unfold JSShape.from_memory
    split
    · rfl
    · rw [hd]
      simp [hl]
  · intro obj h
    unfold JSObject.from_memory at h
    split at h
    · exact absurd h (by simp)
    · split at h
      · exact absurd h (by simp)
      · rename_i data heq
        split at h
        · exact absurd h (by simp)
        · rename_i hlen
          exact ⟨data, heq, by omega⟩
  · intro s h
    unfold JSShape.from_memory at h
    split at h
    · exact absurd h (by simp)
    · split at h
      · exact absurd h (by simp)
      · rename_i data heq
        split at h
        · exact absurd h (by simp)
        · rename_i hlen
          exact ⟨data, heq, by omega⟩

/-- C5, witness: a reader supplying only 3 bytes makes both decoders
fail. -/
theorem from_memory_short_read_witness :
    shortReader 0x2000 JSObjectOffset.SIZE = some [0, 0, 0] ∧
    ([0, 0, 0] : List Nat).length < JSObjectOffset.SIZE ∧
    JSObject.from_memory shortReader 0x2000 = none ∧
    JSShape.from_memory shortReader 0x2000 = none :=
  ⟨rfl, by decide,
   (from_memory_short_read shortReader 0x2000).1 [0, 0, 0] rfl (by decide),
   (from_memory_short_read shortReader 0x2000).2.1 [0, 0, 0] rfl (by decide)⟩

/-- C6: a decoded object whose class id lies outside 1..255 makes
`check_object` return the invalid-object report (type
`INVALID_POINTER`, expected range 1..255), whatever the shape field
holds; the shape check is never reached. -/
theorem check_object_invalid_class_id (det : CorruptionDetector)
    (obj : JSObject) (h : obj.class_id < 1 ∨ 255 < obj.class_id) :
    det.check_object obj =
      some { type := .INVALID_POINTER
             object_addr := obj.addr
             shape_value := obj.shape
             expected_range := some (1, 255)
             description := "Object has invalid class_id: " ++ toString obj.class_id
             severity := "warning"
             recommendation := none } := by
  have hval : obj.is_valid = false := by
    unfold JSObject.is_valid
    split_ifs with g
    · rfl
    · exfalso
      simp only [Bool.or_eq_true, decide_eq_true_eq, not_or] at g
      omega
  unfold CorruptionDetector.check_object
  rw [hval]
  simp

/-- C6, witness: instantiating the theorem at a decoded object with
class id 300 and an otherwise plausible shape value. -/
theorem check_object_invalid_class_id_witness :
    (objFixture300.class_id < 1 ∨ 255 < objFixture300.class_id) ∧
    CorruptionDetector.init.check_object objFixture300 =
      some { type := .INVALID_POINTER
             object_addr := objFixture300.addr
             shape_value := objFixture300.shape
             expected_range := some (1, 255)
             description := "Object has invalid class_id: " ++ toString objFixture300.class_id
             severity := "warning"
             recommendation := none } :=
  ⟨Or.inr (by decide),
   check_object_invalid_class_id CorruptionDetector.init objFixture300
     (Or.inr (by decide))⟩

/-- C7: `check_shape` is total — on every value and every detector state
it produces either no report or some report; there is no failure
outcome. -/
theorem check_shape_total (det : CorruptionDetector) (v oa : Nat) :
    det.check_shape v oa = none ∨ ∃ r, det.check_shape v oa = some r := by
  cases h : det.check_shape v oa
  · exact Or.inl rfl
  · exact Or.inr ⟨_, rfl⟩

/-- C8: classification is idempotent — a `check_shape` call leaves the
detector state unchanged, so an immediately repeated call on the same
value returns the same result. -/
theorem check_shape_idempotent (det : CorruptionDetector) (v oa : Nat) :
    (det.check_shape_run v oa).2 = det ∧
    ((det.check_shape_run v oa).2.check_shape_run v oa).1 =
      (det.check_shape_run v oa).1 :=
  ⟨rfl, rfl⟩

/-- One registration call preserves disjointness of the freed and
known-good sets: each `register_*` method inserts into one set and
discards from the other. -/
lemma setsDisjoint_applyEvent (det : CorruptionDetector) (e : DetectorEvent)
    (h : SetsDisjoint det) : SetsDisjoint (applyEvent det e) := by
  cases e with
  | freed a =>
    intro x hx hg
    simp only [applyEvent, CorruptionDetector.register_freed_shape,
      Finset.mem_insert, Finset.mem_erase] at hx hg
    rcases hx with rfl | hx
    · exact hg.1 rfl
    · exact h x hx hg.2
  | good a =>
    intro x hx hg
    simp only [applyEvent, CorruptionDetector.register_good_shape,
      Finset.mem_erase, Finset.mem_insert] at hx hg
    rcases hg with rfl | hg
    · exact hx.1 rfl
    · exact h x hx.2 hg

/-- Disjointness of the two sets is preserved by every finite sequence
of registration calls. -/
lemma setsDisjoint_applyEvents (evs : List DetectorEvent) :
    ∀ det : CorruptionDetector, SetsDisjoint det →
      SetsDisjoint (applyEvents det evs) := by
  induction evs with
  | nil => intro det h; exact h
  | cons e rest ih => intro det h; exact ih _ (setsDisjoint_applyEvent det e h)

/-- C9: starting from the initial detector state, after any finite
sequence of `register_freed_shape` and `register_good_shape` calls no
address belongs to both the freed-shapes set and the known-good-shapes
set. -/
theorem freed_good_sets_disjoint (evs : List DetectorEvent) (x : Nat)
    (hx : x ∈ (applyEvents CorruptionDetector.init evs).freedShapes) :
    x ∉ (applyEvents CorruptionDetector.init evs).knownGoodShapes :=
  setsDisjoint_applyEvents evs CorruptionDetector.init
    (fun y hy _ => absurd hy (Finset.not_mem_empty y)) x hx

/-- C9, witness: after registering 8 as freed and 16 as good, the
address 8 is in the freed set and therefore not in the good set. -/
theorem freed_good_sets_disjoint_witness :
    (8 : Nat) ∈ (applyEvents CorruptionDetector.init
      [DetectorEvent.freed 8, DetectorEvent.good 16]).freedShapes ∧
    (8 : Nat) ∉ (applyEvents CorruptionDetector.init
      [DetectorEvent.freed 8, DetectorEvent.good 16]).knownGoodShapes :=
  ⟨by decide, freed_good_sets_disjoint [DetectorEvent.freed 8,
    DetectorEvent.good 16] 8 (by decide)⟩

/-- C10: the decoders reject invalid base addresses whatever bytes the
reader would supply — `JSObject.from_memory` fails on every base address
below `MIN_VALID_PTR`, and `JSShape.from_memory` fails on every base
address that is zero, below `MIN_VALID_PTR`, above `MAX_VALID_PTR`, or
not 8-byte aligned. -/
theorem from_memory_rejects_bad_addr (reader : MemoryReader) (addr : Nat) :
    (addr < MIN_VALID_PTR → JSObject.from_memory reader addr = none) ∧
    (addr = 0 ∨ addr < MIN_VALID_PTR ∨ MAX_VALID_PTR < addr ∨ addr % 8 ≠ 0 →
      JSShape.from_memory reader addr = none) := by
  constructor
  · intro h
    unfold JSObject.from_memory
    rw [if_pos h]
  · intro h
    have hv : is_valid_pointer addr = false := by
      unfold is_valid_pointer
      split_ifs with g1 g2 g3 g4 <;> try rfl
      exfalso
      have h7 : addr &&& 7 = addr % 8 := Nat.and_pow_two_sub_one_eq_mod addr 3
      simp only [beq_iff_eq, bne_iff_ne, ne_eq, not_lt, not_not] at g1 g2 g3 g4
      rw [h7] at g4
      rcases h with rfl | h | h | h
      · exact g1 rfl
      · omega
      · omega
      · exact h g4
    unfold JSShape.from_memory
    rw [hv]
    simp

/-- C10, witness: with a reader that would supply plausible bytes, the
object decoder still fails at address 0x8 and the shape decoder still
fails at the unaligned address 0x2004. -/
theorem from_memory_rejects_bad_addr_witness :
    ((0x8 : Nat) < MIN_VALID_PTR ∧
      JSObject.from_memory fullReader 0x8 = none) ∧
    ((0x2004 : Nat) % 8 ≠ 0 ∧
      JSShape.from_memory fullReader 0x2004 = none) :=
  ⟨⟨by decide, (from_memory_rejects_bad_addr fullReader 0x8).1 (by decide)⟩,
   ⟨by decide, (from_memory_rejects_bad_addr fullReader 0x2004).2
      (Or.inr (Or.inr (Or.inr (by decide))))⟩⟩

/-- C3, witness: instantiating the amended theorem at value 0x800. -/
theorem check_shape_small_value_tagged_witness :
    0 < (0x800 : Nat) ∧ (0x800 : Nat) < MIN_VALID_PTR ∧
    looks_like_tagged_value 0x800 = false ∧
    (CorruptionDetector.init.check_shape 0x800 0).map CorruptionReport.type =
      some CorruptionType.TAGGED_VALUE :=
  ⟨by decide, by decide, by decide,
   check_shape_small_value_tagged CorruptionDetector.init 0x800 0
     (by decide) (by decide) (by decide)⟩

end QuickJS
